import Mathlib

/-!
Verification of the ADRV9001 frequency-hopping (FH) control-plane API
(`adi_adrv9001_fh.h`) against its natural-language specification.

The repository ships only the public header (declarations with doc
comments); the function bodies live outside the provided sources.  The
state-machine below is therefore a shallow embedding modelled from the
specification: two ping-pong hop tables (A and B), an active-table
selection with deferred (firmware-confirmed) switching, a three-slot
lookahead window (CURRENT/UPCOMING/NEXT), channel states consumed from an
external accessor, and transport counters recording mailbox / bulk /
direct-signal traffic so that "no transport call is issued" properties are
statable.
-/

namespace Adrv9001Fh

/-- Modelled from the spec: one scheduled hop's parameters (target
frequency descriptor, duration, per-hop gain/attenuation fields); the
concrete `adi_adrv9001_FhHopFrame_t` layout is not under the provided
sources. -/
structure FhHopFrame where
  hopFrequencyHz : Nat
  duration : Nat
  rx1GainIndex : Nat
  tx1Attenuation : Nat
deriving DecidableEq, Repr

/-- Hop table identifier: `FH_HOP_TABLE_A` or `FH_HOP_TABLE_B`
(`adi_adrv9001_FhHopTable_e`). -/
inductive FhHopTableId
  | A
  | B
deriving DecidableEq, Repr

/-- Lookahead slot selector (`adi_adrv9001_FhFrameIndex_e`):
current frame, upcoming frame (next hop edge), next frame (two edges out). -/
inductive FhFrameIndex
  | CURRENT
  | UPCOMING
  | NEXT
deriving DecidableEq, Repr

/-- Modelled from the spec: channel states consumed from the external
channel-state accessor (the state machine itself is owned by the
surrounding driver, not by this core). -/
inductive ChannelState
  | STANDBY
  | CALIBRATED
  | PRIMED
  | PRIMED_RF_ENABLED
deriving DecidableEq, Repr

/-- One radio channel as observed by the FH core: whether it is enabled
for frequency hopping, and its externally-owned state. -/
structure FhChannel where
  fhEnabled : Bool
  state : ChannelState
deriving DecidableEq, Repr

/-- Modelled from the spec: the action-code error taxonomy.
`NoAction` (`ADI_COMMON_ACT_NO_ACTION`) signals success; the others are
the validation errors of the spec's error-handling design. -/
inductive ActionCode
  | NoAction
  | PreconditionViolation
  | CapacityExceeded
  | WriteToActiveTable
  | TransportFailure
deriving DecidableEq, Repr

/-- Modelled from the spec: global FH configuration
(`adi_adrv9001_FhCfg_t` is not under the provided sources) — the mode
enable flag and related scalar parameters. -/
structure FhCfg where
  fhModeOn : Bool
  hopSignalMode : Nat
  txAnalogPowerOnFrameDelay : Nat
deriving DecidableEq, Repr

/-- One slot of the firmware-maintained lookahead window: the hop frame
snapshot plus the schedule time of its hop edge (used to state the
temporal-ordering invariant). -/
structure FrameSlot where
  frame : FhHopFrame
  hopTime : Nat
deriving DecidableEq, Repr

/-- The three-slot lookahead window reported by firmware. -/
structure LookaheadWindow where
  current : FrameSlot
  upcoming : FrameSlot
  nextUp : FrameSlot
deriving DecidableEq, Repr

/-- Modelled from the spec: the whole device-visible FH state — the two
hop-table buffers, the active/pending table selection, the applied
configuration, the lookahead window, the observed channel states, and
transport counters for the three mailbox/bulk channels plus the direct
hop-signal path. -/
structure FhState where
  tableA : List FhHopFrame
  tableB : List FhHopFrame
  activeTable : FhHopTableId
  pendingTable : Option FhHopTableId
  fhConfig : FhCfg
  window : LookaheadWindow
  schedPos : Nat
  channels : List FhChannel
  lowPrioMailboxCount : Nat
  highPrioMailboxCount : Nat
  bulkTransferCount : Nat
  directSignalCount : Nat
deriving DecidableEq, Repr

/-- Table lookup by identifier. -/
def getTable (s : FhState) : FhHopTableId → List FhHopFrame
  | .A => s.tableA
  | .B => s.tableB

/-- Replace the named table's contents. -/
def storeTable (s : FhState) (tid : FhHopTableId) (t : List FhHopFrame) : FhState :=
  match tid with
  | .A => { s with tableA := t }
  | .B => { s with tableB := t }

/-- Slot projection of the lookahead window. -/
def slotAt (w : LookaheadWindow) : FhFrameIndex → FrameSlot
  | .CURRENT => w.current
  | .UPCOMING => w.upcoming
  | .NEXT => w.nextUp

/-- Schedule time of the hop edge of the given lookahead slot. -/
def frameTime (s : FhState) (idx : FhFrameIndex) : Nat :=
  (slotAt s.window idx).hopTime

/-- True when every observed channel is in STANDBY (the precondition of
`adi_adrv9001_fh_Configure`). -/
def allStandby (s : FhState) : Bool :=
  s.channels.all (fun c => c.state = ChannelState.STANDBY)

/-- True when some FH-enabled channel is in PRIMED+RF_ENABLED state (the
precondition for the hop signal to have an effect). -/
def hopEligible (s : FhState) : Bool :=
  s.channels.any (fun c => c.fhEnabled && c.state = ChannelState.PRIMED_RF_ENABLED)

/-- True when some FH-enabled channel has at least reached PRIMED
(covering both PRIMED and PRIMED+RF_ENABLED). -/
def somePrimedReached (s : FhState) : Bool :=
  s.channels.any (fun c => c.fhEnabled &&
    (c.state = ChannelState.PRIMED || c.state = ChannelState.PRIMED_RF_ENABLED))

/-- Modelled from the spec: `adi_adrv9001_fh_Configure` — applies the
global FH configuration via a low-priority mailbox command; precondition
is channel state STANDBY, whose violation is detected locally and
returns `PreconditionViolation` before any transport call. -/
def adi_adrv9001_fh_Configure (s : FhState) (cfg : FhCfg) : ActionCode × FhState :=
  if allStandby s then
    (ActionCode.NoAction,
      { s with fhConfig := cfg, lowPrioMailboxCount := s.lowPrioMailboxCount + 1 })
  else
    (ActionCode.PreconditionViolation, s)

/-- Modelled from the spec: `adi_adrv9001_fh_Configuration_Inspect` —
read-only mailbox query of the applied configuration, callable anytime
post-init, with no side effect on radio state. -/
def adi_adrv9001_fh_Configuration_Inspect (s : FhState) : ActionCode × FhCfg × FhState :=
  (ActionCode.NoAction, s.fhConfig,
    { s with lowPrioMailboxCount := s.lowPrioMailboxCount + 1 })

/-- Modelled from the spec: `adi_adrv9001_fh_HopTable_Configure`
(writeTable) — refuses the currently ACTIVE table (`WriteToActiveTable`),
rejects sizes above the 64-entry capacity (`CapacityExceeded`), and
otherwise replaces the table's full extent up to `hopTableSize` via a
bulk data transfer followed by a confirming high-priority mailbox
trigger. -/
def adi_adrv9001_fh_HopTable_Configure (s : FhState) (tid : FhHopTableId)
    (hopTable : List FhHopFrame) (hopTableSize : Nat) : ActionCode × FhState :=
  if tid = s.activeTable then
    (ActionCode.WriteToActiveTable, s)
  else if 64 < hopTableSize then
    (ActionCode.CapacityExceeded, s)
  else
    (ActionCode.NoAction,
      { storeTable s tid (hopTable.take hopTableSize) with
          bulkTransferCount := s.bulkTransferCount + 1,
          highPrioMailboxCount := s.highPrioMailboxCount + 1 })

/-- Modelled from the spec: `adi_adrv9001_fh_HopTable_Inspect`
(readTable) — reads back at most `hopTableSize` entries of the named
table, reporting the true count read; legal anytime post-init regardless
of which table is active. -/
def adi_adrv9001_fh_HopTable_Inspect (s : FhState) (tid : FhHopTableId)
    (hopTableSize : Nat) : ActionCode × List FhHopFrame × Nat × FhState :=
  let frames := (getTable s tid).take hopTableSize
  (ActionCode.NoAction, frames, frames.length,
    { s with lowPrioMailboxCount := s.lowPrioMailboxCount + 1,
             bulkTransferCount := s.bulkTransferCount + 1 })

/-- Modelled from the spec: `adi_adrv9001_fh_HopTable_Set` (selectTable)
— issues a high-priority mailbox command requesting the ping-pong
switch; the switch takes effect at the next hop boundary once firmware
confirms, not immediately, so it is recorded as pending. -/
def adi_adrv9001_fh_HopTable_Set (s : FhState) (tid : FhHopTableId) : ActionCode × FhState :=
  (ActionCode.NoAction,
    { s with pendingTable := some tid,
             highPrioMailboxCount := s.highPrioMailboxCount + 1 })

/-- Modelled from the spec: `adi_adrv9001_fh_HopTable_Get`
(getActiveTable) — mailbox query reporting the table in use for the most
recently completed switch, which may lag a just-issued switch request. -/
def adi_adrv9001_fh_HopTable_Get (s : FhState) : ActionCode × FhHopTableId × FhState :=
  (ActionCode.NoAction, s.activeTable,
    { s with lowPrioMailboxCount := s.lowPrioMailboxCount + 1 })

/-- Modelled from the spec: `adi_adrv9001_fh_FrameInfo_Inspect`
(inspectFrame) — mailbox query returning the hop-frame snapshot at
CURRENT/UPCOMING/NEXT; a pure ground-truth fetch with no mutation of
radio state. -/
def adi_adrv9001_fh_FrameInfo_Inspect (s : FhState) (idx : FhFrameIndex) :
    ActionCode × FhHopFrame × FhState :=
  (ActionCode.NoAction, (slotAt s.window idx).frame,
    { s with lowPrioMailboxCount := s.lowPrioMailboxCount + 1 })

/-- Firmware confirmation of a pending ping-pong switch: at the next hop
boundary the pending table becomes active. -/
def confirmPendingSwitch (s : FhState) : FhState :=
  match s.pendingTable with
  | some tid => { s with activeTable := tid, pendingTable := none }
  | none => s

/-- Default (empty) hop frame used before the active table populates a
lookahead slot. -/
def defaultFrame : FhHopFrame :=
  { hopFrequencyHz := 0, duration := 0, rx1GainIndex := 0, tx1Attenuation := 0 }

/-- The frame the active table schedules at the current schedule
position (used to populate a fresh NEXT slot after a hop edge). -/
def nextScheduledFrame (s : FhState) : FhHopFrame :=
  (getTable s s.activeTable).getD (s.schedPos % 64) defaultFrame

/-- One hop edge as maintained by firmware: any pending table switch is
confirmed, then the window slides — old UPCOMING becomes CURRENT, old
NEXT becomes UPCOMING, and a new NEXT is populated from the active
table, scheduled no earlier than the old NEXT's edge. -/
def slideWindow (s : FhState) : FhState :=
  let s1 := confirmPendingSwitch s
  { s1 with
      window :=
        { current := s1.window.upcoming,
          upcoming := s1.window.nextUp,
          nextUp :=
            { frame := nextScheduledFrame s1,
              hopTime := s1.window.nextUp.hopTime + s1.window.nextUp.frame.duration } },
      schedPos := s1.schedPos + 1 }

/-- Modelled from the spec: `adi_adrv9001_fh_Hop` — issues the
direct-signal (non-mailbox) hop trigger; if some FH-enabled channel is
in PRIMED+RF_ENABLED state the schedule advances by one edge, otherwise
the call is a documented no-op that still returns success. -/
def adi_adrv9001_fh_Hop (s : FhState) : ActionCode × FhState :=
  if hopEligible s then
    (ActionCode.NoAction,
      slideWindow { s with directSignalCount := s.directSignalCount + 1 })
  else
    (ActionCode.NoAction, { s with directSignalCount := s.directSignalCount + 1 })

/-- The post-init state: both tables empty, table A selected, nothing
pending, FH mode off, lookahead slots at schedule time zero. -/
def initState : FhState :=
  { tableA := [],
    tableB := [],
    activeTable := FhHopTableId.A,
    pendingTable := none,
    fhConfig := { fhModeOn := false, hopSignalMode := 0, txAnalogPowerOnFrameDelay := 0 },
    window :=
      { current := { frame := defaultFrame, hopTime := 0 },
        upcoming := { frame := defaultFrame, hopTime := 0 },
        nextUp := { frame := defaultFrame, hopTime := 0 } },
    schedPos := 0,
    channels := [],
    lowPrioMailboxCount := 0,
    highPrioMailboxCount := 0,
    bulkTransferCount := 0,
    directSignalCount := 0 }

/-- Temporal ordering of the three lookahead slots: CURRENT's hop edge
is no later than UPCOMING's, which is no later than NEXT's. -/
def orderedWindow (w : LookaheadWindow) : Prop :=
  w.current.hopTime ≤ w.upcoming.hopTime ∧ w.upcoming.hopTime ≤ w.nextUp.hopTime

/-- One step of the FH control-plane state machine: any API call, an
external hop edge on the timing signal, or an external change of the
observed channel states. -/
inductive Step : FhState → FhState → Prop
  | configure (s : FhState) (cfg : FhCfg) :
      Step s (adi_adrv9001_fh_Configure s cfg).2
  | cfgInspect (s : FhState) :
      Step s (adi_adrv9001_fh_Configuration_Inspect s).2.2
  | tableWrite (s : FhState) (tid : FhHopTableId) (t : List FhHopFrame) (n : Nat) :
      Step s (adi_adrv9001_fh_HopTable_Configure s tid t n).2
  | tableRead (s : FhState) (tid : FhHopTableId) (n : Nat) :
      Step s (adi_adrv9001_fh_HopTable_Inspect s tid n).2.2.2
  | tableSet (s : FhState) (tid : FhHopTableId) :
      Step s (adi_adrv9001_fh_HopTable_Set s tid).2
  | tableGet (s : FhState) :
      Step s (adi_adrv9001_fh_HopTable_Get s).2.2
  | frameInspect (s : FhState) (idx : FhFrameIndex) :
      Step s (adi_adrv9001_fh_FrameInfo_Inspect s idx).2.2
  | hop (s : FhState) :
      Step s (adi_adrv9001_fh_Hop s).2
  | extHopEdge (s : FhState) :
      Step s (slideWindow s)
  | channelChange (s : FhState) (chs : List FhChannel) :
      Step s { s with channels := chs }

/-- States reachable from the post-init state by any interleaving of API
calls and external events. -/
inductive Reachable : FhState → Prop
  | init : Reachable initState
  | step {s s' : FhState} : Reachable s → Step s s' → Reachable s'

theorem window_confirmPendingSwitch (s : FhState) :
    (confirmPendingSwitch s).window = s.window := by
  unfold confirmPendingSwitch
  cases s.pendingTable <;> rfl

theorem schedPos_confirmPendingSwitch (s : FhState) :
    (confirmPendingSwitch s).schedPos = s.schedPos := by
  unfold confirmPendingSwitch
  cases s.pendingTable <;> rfl

theorem getTable_storeTable (s : FhState) (tid : FhHopTableId) (t : List FhHopFrame) :
    getTable (storeTable s tid t) tid = t := by
  cases tid <;> rfl

theorem orderedWindow_slideWindow (s : FhState) (h : orderedWindow s.window) :
    orderedWindow (slideWindow s).window := by
  have hw : (confirmPendingSwitch s).window = s.window := window_confirmPendingSwitch s
  simp only [slideWindow, orderedWindow, hw]
  exact ⟨h.2, Nat.le_add_right _ _⟩

theorem window_storeTable (s : FhState) (tid : FhHopTableId) (t : List FhHopFrame) :
    (storeTable s tid t).window = s.window := by
  cases tid <;> rfl

/-- C1: For every payload and size, a `adi_adrv9001_fh_HopTable_Configure`
call whose tableId equals the currently ACTIVE table returns the
`WriteToActiveTable` error and leaves the device state — in particular
that table — completely unchanged; writes must target the inactive
table. -/
theorem hopTableConfigure_rejects_active_table (s : FhState)
    (frames : List FhHopFrame) (n : Nat) :
    (adi_adrv9001_fh_HopTable_Configure s s.activeTable frames n).1 =
      ActionCode.WriteToActiveTable ∧
    (adi_adrv9001_fh_HopTable_Configure s s.activeTable frames n).2 = s := by
  simp [adi_adrv9001_fh_HopTable_Configure]

/-- C2: targeting the inactive table, `adi_adrv9001_fh_HopTable_Configure`
with `hopTableSize = 65` fails with `CapacityExceeded` while
`hopTableSize = 64` succeeds: 64 is the exact capacity boundary of a hop
table. -/
theorem hopTableConfigure_capacity_boundary (s : FhState) (tid : FhHopTableId)
    (frames : List FhHopFrame) (h : tid ≠ s.activeTable) :
    (adi_adrv9001_fh_HopTable_Configure s tid frames 65).1 =
      ActionCode.CapacityExceeded ∧
    (adi_adrv9001_fh_HopTable_Configure s tid frames 64).1 =
      ActionCode.NoAction := by
  simp [adi_adrv9001_fh_HopTable_Configure, h]

theorem hopTableConfigure_capacity_boundary_witness :
    (adi_adrv9001_fh_HopTable_Configure initState FhHopTableId.B [] 65).1 =
      ActionCode.CapacityExceeded ∧
    (adi_adrv9001_fh_HopTable_Configure initState FhHopTableId.B [] 64).1 =
      ActionCode.NoAction :=
  hopTableConfigure_capacity_boundary initState FhHopTableId.B [] (by decide)

/-- C3: for every tableId that is not currently ACTIVE and every frame
sequence of length `n ≤ 64`, writing the table with
`adi_adrv9001_fh_HopTable_Configure` and reading it back with
`adi_adrv9001_fh_HopTable_Inspect` returns exactly the `n` frames
written, in order, with `numEntriesRead = n`. -/
theorem hopTable_write_read_roundtrip (s : FhState) (tid : FhHopTableId)
    (frames : List FhHopFrame) (n : Nat) (h1 : tid ≠ s.activeTable)
    (h2 : frames.length = n) (h3 : n ≤ 64) :
    (adi_adrv9001_fh_HopTable_Inspect
        (adi_adrv9001_fh_HopTable_Configure s tid frames n).2 tid n).2.1 = frames ∧
    (adi_adrv9001_fh_HopTable_Inspect
        (adi_adrv9001_fh_HopTable_Configure s tid frames n).2 tid n).2.2.1 = n := by
  subst h2
  have hn : ¬ (64 < frames.length) := Nat.not_lt.mpr h3
  have hget :
      getTable (adi_adrv9001_fh_HopTable_Configure s tid frames frames.length).2 tid
        = frames := by
    simp only [adi_adrv9001_fh_HopTable_Configure, if_neg h1, if_neg hn]
    have : getTable
        { storeTable s tid (frames.take frames.length) with
            bulkTransferCount := s.bulkTransferCount + 1,
            highPrioMailboxCount := s.highPrioMailboxCount + 1 } tid
        = getTable (storeTable s tid (frames.take frames.length)) tid := by
      cases tid <;> rfl
    rw [this, getTable_storeTable, List.take_length]
  constructor
  · simp [adi_adrv9001_fh_HopTable_Inspect, hget]
  · simp [adi_adrv9001_fh_HopTable_Inspect, hget]

theorem hopTable_write_read_roundtrip_witness :
    (adi_adrv9001_fh_HopTable_Inspect
        (adi_adrv9001_fh_HopTable_Configure initState FhHopTableId.B
          [{ hopFrequencyHz := 900, duration := 5, rx1GainIndex := 1, tx1Attenuation := 2 },
           { hopFrequencyHz := 910, duration := 6, rx1GainIndex := 3, tx1Attenuation := 4 }] 2).2
        FhHopTableId.B 2).2.1 =
      [{ hopFrequencyHz := 900, duration := 5, rx1GainIndex := 1, tx1Attenuation := 2 },
       { hopFrequencyHz := 910, duration := 6, rx1GainIndex := 3, tx1Attenuation := 4 }] ∧
    (adi_adrv9001_fh_HopTable_Inspect
        (adi_adrv9001_fh_HopTable_Configure initState FhHopTableId.B
          [{ hopFrequencyHz := 900, duration := 5, rx1GainIndex := 1, tx1Attenuation := 2 },
           { hopFrequencyHz := 910, duration := 6, rx1GainIndex := 3, tx1Attenuation := 4 }] 2).2
        FhHopTableId.B 2).2.2.1 = 2 :=
  hopTable_write_read_roundtrip initState FhHopTableId.B
    [{ hopFrequencyHz := 900, duration := 5, rx1GainIndex := 1, tx1Attenuation := 2 },
     { hopFrequencyHz := 910, duration := 6, rx1GainIndex := 3, tx1Attenuation := 4 }] 2
    (by decide) (by decide) (by decide)

/-- C4: whenever `adi_adrv9001_fh_Configure` is called while the device
channel state is not STANDBY, it returns `PreconditionViolation` and the
state is returned unchanged — in particular all three transport counters
are untouched, so zero Command Channel calls were issued. -/
theorem configure_outside_standby (s : FhState) (cfg : FhCfg)
    (h : allStandby s = false) :
    adi_adrv9001_fh_Configure s cfg = (ActionCode.PreconditionViolation, s) ∧
    (adi_adrv9001_fh_Configure s cfg).2.lowPrioMailboxCount = s.lowPrioMailboxCount ∧
    (adi_adrv9001_fh_Configure s cfg).2.highPrioMailboxCount = s.highPrioMailboxCount ∧
    (adi_adrv9001_fh_Configure s cfg).2.bulkTransferCount = s.bulkTransferCount := by
  simp [adi_adrv9001_fh_Configure, h]

theorem configure_outside_standby_witness :
    adi_adrv9001_fh_Configure
        { initState with channels := [{ fhEnabled := true, state := ChannelState.PRIMED }] }
        { fhModeOn := true, hopSignalMode := 0, txAnalogPowerOnFrameDelay := 0 } =
      (ActionCode.PreconditionViolation,
        { initState with channels := [{ fhEnabled := true, state := ChannelState.PRIMED }] }) ∧
    (adi_adrv9001_fh_Configure
        { initState with channels := [{ fhEnabled := true, state := ChannelState.PRIMED }] }
        { fhModeOn := true, hopSignalMode := 0, txAnalogPowerOnFrameDelay := 0 }).2.lowPrioMailboxCount =
      ({ initState with channels := [{ fhEnabled := true, state := ChannelState.PRIMED }] } : FhState).lowPrioMailboxCount ∧
    (adi_adrv9001_fh_Configure
        { initState with channels := [{ fhEnabled := true, state := ChannelState.PRIMED }] }
        { fhModeOn := true, hopSignalMode := 0, txAnalogPowerOnFrameDelay := 0 }).2.highPrioMailboxCount =
      ({ initState with channels := [{ fhEnabled := true, state := ChannelState.PRIMED }] } : FhState).highPrioMailboxCount ∧
    (adi_adrv9001_fh_Configure
        { initState with channels := [{ fhEnabled := true, state := ChannelState.PRIMED }] }
        { fhModeOn := true, hopSignalMode := 0, txAnalogPowerOnFrameDelay := 0 }).2.bulkTransferCount =
      ({ initState with channels := [{ fhEnabled := true, state := ChannelState.PRIMED }] } : FhState).bulkTransferCount :=
  configure_outside_standby
    { initState with channels := [{ fhEnabled := true, state := ChannelState.PRIMED }] }
    { fhModeOn := true, hopSignalMode := 0, txAnalogPowerOnFrameDelay := 0 }
    (by decide)

/-- C5: when no FH-enabled channel is in PRIMED+RF_ENABLED state,
`adi_adrv9001_fh_Hop` returns the success code `NoAction` and the hop
schedule does not advance: the lookahead window is unchanged and
`adi_adrv9001_fh_FrameInfo_Inspect` on CURRENT returns the same frame
before and after the call. -/
theorem hop_noop_without_rf_enabled (s : FhState) (h : hopEligible s = false) :
    (adi_adrv9001_fh_Hop s).1 = ActionCode.NoAction ∧
    (adi_adrv9001_fh_Hop s).2.window = s.window ∧
    (adi_adrv9001_fh_FrameInfo_Inspect (adi_adrv9001_fh_Hop s).2 FhFrameIndex.CURRENT).2.1 =
      (adi_adrv9001_fh_FrameInfo_Inspect s FhFrameIndex.CURRENT).2.1 := by
  simp [adi_adrv9001_fh_Hop, adi_adrv9001_fh_FrameInfo_Inspect, h]

theorem hop_noop_without_rf_enabled_witness :
    (adi_adrv9001_fh_Hop
        { initState with channels := [{ fhEnabled := true, state := ChannelState.PRIMED }] }).1 =
      ActionCode.NoAction ∧
    (adi_adrv9001_fh_Hop
        { initState with channels := [{ fhEnabled := true, state := ChannelState.PRIMED }] }).2.window =
      ({ initState with channels := [{ fhEnabled := true, state := ChannelState.PRIMED }] } : FhState).window ∧
    (adi_adrv9001_fh_FrameInfo_Inspect
        (adi_adrv9001_fh_Hop
          { initState with channels := [{ fhEnabled := true, state := ChannelState.PRIMED }] }).2
        FhFrameIndex.CURRENT).2.1 =
      (adi_adrv9001_fh_FrameInfo_Inspect
        { initState with channels := [{ fhEnabled := true, state := ChannelState.PRIMED }] }
        FhFrameIndex.CURRENT).2.1 :=
  hop_noop_without_rf_enabled
    { initState with channels := [{ fhEnabled := true, state := ChannelState.PRIMED }] }
    (by decide)

theorem step_preserves_orderedWindow {s s' : FhState}
    (hs : orderedWindow s.window) (h : Step s s') : orderedWindow s'.window := by
  cases h with
  | configure cfg =>
      unfold adi_adrv9001_fh_Configure
      split <;> exact hs
  | cfgInspect => exact hs
  | tableWrite tid t n =>
      unfold adi_adrv9001_fh_HopTable_Configure
      split
      · exact hs
      · split
        · exact hs
        · simpa [window_storeTable] using hs
  | tableRead tid n => exact hs
  | tableSet tid => exact hs
  | tableGet => exact hs
  | frameInspect idx => exact hs
  | hop =>
      unfold adi_adrv9001_fh_Hop
      split
      · exact orderedWindow_slideWindow _ hs
      · exact hs
  | extHopEdge => exact orderedWindow_slideWindow _ hs
  | channelChange chs => exact hs

/-- C6: in every reachable state of the lookahead window the three-slot
ordering invariant holds — the schedule times satisfy
CURRENT ≤ UPCOMING ≤ NEXT — and `adi_adrv9001_fh_FrameInfo_Inspect`
leaves the window untouched, so three consecutive queries on CURRENT,
UPCOMING and NEXT taken with no hop edge in between all observe this
same temporally non-decreasing window. -/
theorem lookahead_window_ordering (s : FhState) (h : Reachable s) :
    (frameTime s FhFrameIndex.CURRENT ≤ frameTime s FhFrameIndex.UPCOMING ∧
      frameTime s FhFrameIndex.UPCOMING ≤ frameTime s FhFrameIndex.NEXT) ∧
    ∀ idx : FhFrameIndex,
      ((adi_adrv9001_fh_FrameInfo_Inspect s idx).2.2).window = s.window := by
  have hw : orderedWindow s.window := by
    induction h with
    | init => exact ⟨Nat.le_refl 0, Nat.le_refl 0⟩
    | step hr hst ih => exact step_preserves_orderedWindow ih hst
  exact ⟨⟨hw.1, hw.2⟩, fun idx => rfl⟩

theorem lookahead_window_ordering_witness :
    (frameTime initState FhFrameIndex.CURRENT ≤ frameTime initState FhFrameIndex.UPCOMING ∧
      frameTime initState FhFrameIndex.UPCOMING ≤ frameTime initState FhFrameIndex.NEXT) ∧
    ∀ idx : FhFrameIndex,
      ((adi_adrv9001_fh_FrameInfo_Inspect initState idx).2.2).window = initState.window :=
  lookahead_window_ordering initState Reachable.init

/-- C7: `adi_adrv9001_fh_HopTable_Set` does not take effect immediately:
with table A active, right after requesting the switch to B,
`adi_adrv9001_fh_HopTable_Get` still reports A, and once firmware
confirms the switch at the next hop boundary it reports B. -/
theorem hopTableSet_deferred_until_confirm (s : FhState)
    (h : s.activeTable = FhHopTableId.A) :
    (adi_adrv9001_fh_HopTable_Get
        (adi_adrv9001_fh_HopTable_Set s FhHopTableId.B).2).2.1 = FhHopTableId.A ∧
    (adi_adrv9001_fh_HopTable_Get
        (confirmPendingSwitch
          (adi_adrv9001_fh_HopTable_Set s FhHopTableId.B).2)).2.1 = FhHopTableId.B := by
  simp [adi_adrv9001_fh_HopTable_Get, adi_adrv9001_fh_HopTable_Set,
    confirmPendingSwitch, h]

theorem hopTableSet_deferred_until_confirm_witness :
    (adi_adrv9001_fh_HopTable_Get
        (adi_adrv9001_fh_HopTable_Set initState FhHopTableId.B).2).2.1 = FhHopTableId.A ∧
    (adi_adrv9001_fh_HopTable_Get
        (confirmPendingSwitch
          (adi_adrv9001_fh_HopTable_Set initState FhHopTableId.B).2)).2.1 = FhHopTableId.B :=
  hopTableSet_deferred_until_confirm initState (by decide)

/-- C8: `adi_adrv9001_fh_Configuration_Inspect` succeeds in every state
(callable anytime post-init, regardless of channel state), returns the
applied configuration, and is a pure read-only query: the FH
configuration, both hop tables, the active and pending table selection,
and the lookahead window are all unchanged. -/
theorem configurationInspect_pure_query (s : FhState) :
    (adi_adrv9001_fh_Configuration_Inspect s).1 = ActionCode.NoAction ∧
    (adi_adrv9001_fh_Configuration_Inspect s).2.1 = s.fhConfig ∧
    (adi_adrv9001_fh_Configuration_Inspect s).2.2.fhConfig = s.fhConfig ∧
    (adi_adrv9001_fh_Configuration_Inspect s).2.2.tableA = s.tableA ∧
    (adi_adrv9001_fh_Configuration_Inspect s).2.2.tableB = s.tableB ∧
    (adi_adrv9001_fh_Configuration_Inspect s).2.2.activeTable = s.activeTable ∧
    (adi_adrv9001_fh_Configuration_Inspect s).2.2.pendingTable = s.pendingTable ∧
    (adi_adrv9001_fh_Configuration_Inspect s).2.2.window = s.window := by
  simp [adi_adrv9001_fh_Configuration_Inspect]

theorem slideWindow_counters (s : FhState) :
    (slideWindow s).lowPrioMailboxCount = s.lowPrioMailboxCount ∧
    (slideWindow s).highPrioMailboxCount = s.highPrioMailboxCount ∧
    (slideWindow s).bulkTransferCount = s.bulkTransferCount ∧
    (slideWindow s).directSignalCount = s.directSignalCount := by
  unfold slideWindow
  rcases hp : s.pendingTable with _ | tid <;> simp [confirmPendingSwitch, hp]

/-- C9: `adi_adrv9001_fh_Hop` advances the schedule exclusively through
the direct (non-mailbox) signal path: every call leaves all three
Command Channel counters (low-priority mailbox, high-priority mailbox,
bulk transfer) untouched and records exactly one direct-signal
access. -/
theorem hop_issues_no_mailbox_command (s : FhState) :
    (adi_adrv9001_fh_Hop s).2.lowPrioMailboxCount = s.lowPrioMailboxCount ∧
    (adi_adrv9001_fh_Hop s).2.highPrioMailboxCount = s.highPrioMailboxCount ∧
    (adi_adrv9001_fh_Hop s).2.bulkTransferCount = s.bulkTransferCount ∧
    (adi_adrv9001_fh_Hop s).2.directSignalCount = s.directSignalCount + 1 := by
  unfold adi_adrv9001_fh_Hop
  split
  · have h := slideWindow_counters { s with directSignalCount := s.directSignalCount + 1 }
    simpa using h
  · exact ⟨rfl, rfl, rfl, rfl⟩

/-- C10 counterexample: in the concrete state whose single FH-enabled
channel has reached PRIMED but is not RF-enabled, the claimed hop
precondition reading is refuted — `adi_adrv9001_fh_Hop` leaves the
lookahead window and the schedule position unchanged, so a channel
merely reaching PRIMED does not satisfy the precondition for the hop to
advance the schedule. -/
theorem hop_primed_only_does_not_advance :
    somePrimedReached
        { initState with channels := [{ fhEnabled := true, state := ChannelState.PRIMED }] } = true ∧
    (adi_adrv9001_fh_Hop
        { initState with channels := [{ fhEnabled := true, state := ChannelState.PRIMED }] }).2.window =
      ({ initState with channels := [{ fhEnabled := true, state := ChannelState.PRIMED }] } : FhState).window ∧
    (adi_adrv9001_fh_Hop
        { initState with channels := [{ fhEnabled := true, state := ChannelState.PRIMED }] }).2.schedPos =
      ({ initState with channels := [{ fhEnabled := true, state := ChannelState.PRIMED }] } : FhState).schedPos := by
  decide

/-- C10 (amended): `adi_adrv9001_fh_Hop` takes only the device state and
no per-channel argument, and a single call advances the hop schedule
device-wide as soon as at least one FH-enabled channel — any of them —
is in the PRIMED+RF_ENABLED state: the call succeeds, the schedule
position increments, and the old UPCOMING frame becomes CURRENT. -/
theorem hop_device_wide_any_rf_enabled_channel (s : FhState) (c : FhChannel)
    (hc : c ∈ s.channels) (hen : c.fhEnabled = true)
    (hst : c.state = ChannelState.PRIMED_RF_ENABLED) :
    (adi_adrv9001_fh_Hop s).1 = ActionCode.NoAction ∧
    (adi_adrv9001_fh_Hop s).2.schedPos = s.schedPos + 1 ∧
    (adi_adrv9001_fh_Hop s).2.window.current = s.window.upcoming := by
  have he : hopEligible s = true := by
    unfold hopEligible
    rw [List.any_eq_true]
    exact ⟨c, hc, by simp [hen, hst]⟩
  have h1 := schedPos_confirmPendingSwitch
    { s with directSignalCount := s.directSignalCount + 1 }
  have h2 := window_confirmPendingSwitch
    { s with directSignalCount := s.directSignalCount + 1 }
  simp [adi_adrv9001_fh_Hop, he, slideWindow, h1, h2]

theorem hop_device_wide_any_rf_enabled_channel_witness :
    (adi_adrv9001_fh_Hop
        { initState with
            channels := [{ fhEnabled := true, state := ChannelState.PRIMED_RF_ENABLED }] }).1 =
      ActionCode.NoAction ∧
    (adi_adrv9001_fh_Hop
        { initState with
            channels := [{ fhEnabled := true, state := ChannelState.PRIMED_RF_ENABLED }] }).2.schedPos =
      ({ initState with
          channels := [{ fhEnabled := true, state := ChannelState.PRIMED_RF_ENABLED }] } : FhState).schedPos + 1 ∧
    (adi_adrv9001_fh_Hop
        { initState with
            channels := [{ fhEnabled := true, state := ChannelState.PRIMED_RF_ENABLED }] }).2.window.current =
      ({ initState with
          channels := [{ fhEnabled := true, state := ChannelState.PRIMED_RF_ENABLED }] } : FhState).window.upcoming :=
  hop_device_wide_any_rf_enabled_channel
    { initState with channels := [{ fhEnabled := true, state := ChannelState.PRIMED_RF_ENABLED }] }
    { fhEnabled := true, state := ChannelState.PRIMED_RF_ENABLED }
    (by decide) (by decide) (by decide)

end Adrv9001Fh
